import Mathlib

/-!
Shallow embedding of the Social Creator Platform API backend
(src/main.py and src/schemas.py).

The document store accessed through database.py (`create_document`,
`get_documents`) is not part of src/; following the spec (§4.2), it is
modelled as typed per-collection lists with insert-at-end and
filter-then-take reads ("up to limit matching documents in store-native
order", taken here as insertion order).  MongoDB filter evaluation for the
query shapes built in src/main.py is modelled per the spec's reading:
equality, `$in` membership, `$or`, and `$regex`/`$options i` as
case-insensitive substring match (§4.3 "Search: case-insensitive substring
match on free text OR exact membership in tags").
-/

namespace CreatorPlatform

/-! ## Schema layer (src/schemas.py)

Pydantic models become Lean structures.  `Literal[...]` fields are strings
whose allowed values are checked by the validation functions below;
`Optional[...]` fields are `Option`; defaults mirror the pydantic defaults.
`HttpUrl` fields are kept as strings (URL well-formedness is not modelled).
-/

/-- src/schemas.py `ProfileSettings`. -/
structure ProfileSettings where
  bio : Option String
  avatar_url : Option String
  banner_url : Option String
  theme : Option String
  links : Option (List String)
  privacy_level : String
deriving DecidableEq, Repr

/-- src/schemas.py `User`. -/
structure User where
  username : String
  email : String
  name : Option String
  settings : Option ProfileSettings
  is_creator : Bool
  verified : Bool
deriving DecidableEq, Repr

/-- src/schemas.py `SubscriptionPlan` (price_cents carries `ge=0` in the
pydantic `Field`, enforced by `validatePlan` below). -/
structure SubscriptionPlan where
  creator_id : String
  title : String
  price_cents : Int
  currency : String
  benefits : List String
  tier : String
deriving DecidableEq, Repr

/-- src/schemas.py `Payment` (`amount_cents: int` with no range constraint). -/
structure Payment where
  user_id : String
  amount_cents : Int
  currency : String
  purpose : String
  provider : String
  status : String
  metadata : Option (List (String × String))
deriving DecidableEq, Repr

/-- src/schemas.py `DRMPolicy`. -/
structure DRMPolicy where
  watermark : Bool
  expire_seconds : Option Int
  allow_download : Bool
deriving DecidableEq, Repr

/-- src/schemas.py `Post`. -/
structure Post where
  author_id : String
  content_type : String
  text : Option String
  media_url : Option String
  thumbnail_url : Option String
  tags : List String
  is_premium : Bool
  required_tier : Option String
  drm : Option DRMPolicy
  visibility : String
deriving DecidableEq, Repr

/-- src/schemas.py `Message`. -/
structure Message where
  sender_id : String
  recipient_id : String
  body : String
  thread_id : Option String
deriving DecidableEq, Repr

/-! ## Request payloads and validation

FastAPI validates the request body against the pydantic schema before the
handler body runs; an invalid payload produces a validation error naming the
offending field and no handler code executes (spec §4.1, §4.3).  A raw
payload is the schema with every client-suppliable field still optional;
validation either fills defaults and checks constraints, or fails. -/

/-- A validation error: the offending field and the violated constraint. -/
structure VError where
  field : String
  msg : String
deriving DecidableEq, Repr

/-- A required field: present or a "Field required" error. -/
def reqField (name : String) : Option α → Except VError α
  | none => .error ⟨name, "Field required"⟩
  | some v => .ok v

/-- An enumerated (`Literal[...]`) field with a default: absent yields the
default, present values must be among the permitted ones. -/
def enumField (name : String) (allowed : List String) (dflt : String) :
    Option String → Except VError String
  | none => .ok dflt
  | some v =>
    if allowed.contains v then .ok v
    else .error ⟨name, "Input should be a permitted value"⟩

/-- A required enumerated field: must be present and among the permitted
values. -/
def reqEnumField (name : String) (allowed : List String) :
    Option String → Except VError String
  | none => .error ⟨name, "Field required"⟩
  | some v =>
    if allowed.contains v then .ok v
    else .error ⟨name, "Input should be a permitted value"⟩

/-- Raw request body for POST /users. -/
structure RawUser where
  username : Option String
  email : Option String
  name : Option String
  settings : Option ProfileSettings
  is_creator : Option Bool
  verified : Option Bool
deriving DecidableEq, Repr

/-- Validation of a `User` payload per src/schemas.py: username and email
required, `is_creator` defaults true, `verified` defaults false. -/
def validateUser (r : RawUser) : Except VError User :=
  match reqField "username" r.username with
  | .error e => .error e
  | .ok username =>
    match reqField "email" r.email with
    | .error e => .error e
    | .ok email =>
      .ok ⟨username, email, r.name, r.settings,
           r.is_creator.getD true, r.verified.getD false⟩

/-- Raw request body for POST /posts. -/
structure RawPost where
  author_id : Option String
  content_type : Option String
  text : Option String
  media_url : Option String
  thumbnail_url : Option String
  tags : Option (List String)
  is_premium : Option Bool
  required_tier : Option String
  drm : Option DRMPolicy
  visibility : Option String
deriving DecidableEq, Repr

/-- The permitted `Post.content_type` values (src/schemas.py line 64). -/
def contentTypes : List String := ["text", "image", "short_video", "live_stream", "audio"]

/-- The permitted visibility values (src/schemas.py line 72). -/
def visibilities : List String := ["public", "followers", "subscribers", "private"]

/-- Validation of a `Post` payload per src/schemas.py: author_id and
content_type required, content_type and visibility enumerated, tags default
`[]`, is_premium defaults false, visibility defaults "public". -/
def validatePost (r : RawPost) : Except VError Post :=
  match reqField "author_id" r.author_id with
  | .error e => .error e
  | .ok author_id =>
    match reqEnumField "content_type" contentTypes r.content_type with
    | .error e => .error e
    | .ok content_type =>
      match enumField "visibility" visibilities "public" r.visibility with
      | .error e => .error e
      | .ok visibility =>
        .ok ⟨author_id, content_type, r.text, r.media_url, r.thumbnail_url,
             r.tags.getD [], r.is_premium.getD false, r.required_tier,
             r.drm, visibility⟩

/-- Raw request body for POST /plans. -/
structure RawPlan where
  creator_id : Option String
  title : Option String
  price_cents : Option Int
  currency : Option String
  benefits : Option (List String)
  tier : Option String
deriving DecidableEq, Repr

/-- The permitted `SubscriptionPlan.tier` values (src/schemas.py line 38). -/
def tiers : List String := ["bronze", "silver", "gold", "platinum"]

/-- Validation of a `SubscriptionPlan` payload per src/schemas.py:
creator_id, title and price_cents required, price_cents ≥ 0 (`Field(..., ge=0)`),
currency defaults "USD", benefits default `[]`, tier enumerated with default
"bronze". -/
def validatePlan (r : RawPlan) : Except VError SubscriptionPlan :=
  match reqField "creator_id" r.creator_id with
  | .error e => .error e
  | .ok creator_id =>
    match reqField "title" r.title with
    | .error e => .error e
    | .ok title =>
      match reqField "price_cents" r.price_cents with
      | .error e => .error e
      | .ok price_cents =>
        if price_cents < 0 then
          .error ⟨"price_cents", "Input should be greater than or equal to 0"⟩
        else
          match enumField "tier" tiers "bronze" r.tier with
          | .error e => .error e
          | .ok tier =>
            .ok ⟨creator_id, title, price_cents, r.currency.getD "USD",
                 r.benefits.getD [], tier⟩

/-- Raw request body for POST /payments. -/
structure RawPayment where
  user_id : Option String
  amount_cents : Option Int
  currency : Option String
  purpose : Option String
  provider : Option String
  status : Option String
  metadata : Option (List (String × String))
deriving DecidableEq, Repr

/-- Validation of a `Payment` payload per src/schemas.py: user_id and
amount_cents required, amount_cents has no range constraint, purpose /
provider / status enumerated with defaults. -/
def validatePayment (r : RawPayment) : Except VError Payment :=
  match reqField "user_id" r.user_id with
  | .error e => .error e
  | .ok user_id =>
    match reqField "amount_cents" r.amount_cents with
    | .error e => .error e
    | .ok amount_cents =>
      match enumField "purpose" ["subscription", "tip", "purchase"] "subscription" r.purpose with
      | .error e => .error e
      | .ok purpose =>
        match enumField "provider" ["stripe", "paypal", "mock"] "mock" r.provider with
        | .error e => .error e
        | .ok provider =>
          match enumField "status" ["initiated", "succeeded", "failed"] "initiated" r.status with
          | .error e => .error e
          | .ok status =>
            .ok ⟨user_id, amount_cents, r.currency.getD "USD", purpose,
                 provider, status, r.metadata⟩

/-! ## Document store (modelled from the spec)

Modelled from the spec: database.py is not under src/.  §4.2 specifies
Insert-one (store the record, return a new unique identifier) and Find-many
(up to `limit` matching documents in store-native order, taken as insertion
order).  One typed list per collection used by the endpoints under study. -/

structure Store where
  users : List User
  posts : List Post
  messages : List Message
  plans : List SubscriptionPlan
  payments : List Payment
  nextId : Nat
deriving DecidableEq, Repr

def emptyStore : Store := ⟨[], [], [], [], [], 0⟩

/-- Insert-one into the "user" collection: append, return a fresh id. -/
def insertUser (s : Store) (u : User) : String × Store :=
  (toString s.nextId, { s with users := s.users ++ [u], nextId := s.nextId + 1 })

/-- Insert-one into the "post" collection. -/
def insertPost (s : Store) (p : Post) : String × Store :=
  (toString s.nextId, { s with posts := s.posts ++ [p], nextId := s.nextId + 1 })

/-- Insert-one into the "subscriptionplan" collection. -/
def insertPlan (s : Store) (p : SubscriptionPlan) : String × Store :=
  (toString s.nextId, { s with plans := s.plans ++ [p], nextId := s.nextId + 1 })

/-- Insert-one into the "payment" collection. -/
def insertPayment (s : Store) (p : Payment) : String × Store :=
  (toString s.nextId, { s with payments := s.payments ++ [p], nextId := s.nextId + 1 })

/-! ## Filter evaluation helpers -/

/-- Does `needle` occur as a contiguous sublist of `hay`? -/
def listContainsSub (hay needle : List Char) : Bool :=
  needle.isPrefixOf hay ||
    match hay with
    | [] => false
    | _ :: tl => listContainsSub tl needle

/-- Modelled from the spec: evaluation of the Mongo clause
`{"$regex": q, "$options": "i"}` built in src/main.py line 161 happens in
the store behind database.py (absent from src/); the spec (§4.3) reads it
as "case-insensitive substring match on free text". -/
def strContainsCI (hay needle : String) : Bool :=
  listContainsSub (hay.toList.map Char.toLower) (needle.toList.map Char.toLower)

/-- Python truthiness of an optional string parameter, as tested by
`if tag:` / `if author_id:` / `if with_user:` in src/main.py: `None` and
the empty string are falsy. -/
def truthyStr : Option String → Bool
  | none => false
  | some s => !s.isEmpty

/-! ## HTTP handlers (src/main.py)

Create handlers return the validation error and the unchanged store, or the
generated id and the extended store.  List handlers mirror the query dict
each handler builds and the fixed cap passed to `get_documents`. -/

/-- src/main.py `create_user` (POST /users): validate, insert-one,
respond with the id. -/
def create_user (s : Store) (r : RawUser) : Except VError String × Store :=
  match validateUser r with
  | .error e => (.error e, s)
  | .ok u => let res := insertUser s u; (.ok res.1, res.2)

/-- src/main.py `list_users` (GET /users): `get_documents("user", {}, 50)`. -/
def list_users (s : Store) : List User :=
  s.users.take 50

/-- src/main.py `create_post` (POST /posts). -/
def create_post (s : Store) (r : RawPost) : Except VError String × Store :=
  match validatePost r with
  | .error e => (.error e, s)
  | .ok p => let res := insertPost s p; (.ok res.1, res.2)

/-- src/main.py `list_posts` (GET /posts): starts from `{}`, adds
`{"tags": {"$in": [tag]}}` when `tag` is truthy and
`{"author_id": author_id}` when `author_id` is truthy, then
`get_documents("post", query, 100)`. -/
def list_posts (s : Store) (tag author_id : Option String) : List Post :=
  let q : Post → Bool := fun p =>
    (if truthyStr tag then p.tags.contains (tag.getD "") else true) &&
    (if truthyStr author_id then p.author_id == author_id.getD "" else true)
  (s.posts.filter q).take 100

/-- src/main.py `get_messages` (GET /messages): participant `$or` filter;
when `with_user` is truthy, the exact sender/recipient pair in either
direction; `get_documents("message", q, 200)`. -/
def get_messages (s : Store) (user_id : String) (with_user : Option String) : List Message :=
  let q : Message → Bool :=
    if truthyStr with_user then
      fun m =>
        (m.sender_id == user_id && m.recipient_id == with_user.getD "") ||
        (m.sender_id == with_user.getD "" && m.recipient_id == user_id)
    else
      fun m => m.sender_id == user_id || m.recipient_id == user_id
  (s.messages.filter q).take 200

/-- src/main.py `create_plan` (POST /plans). -/
def create_plan (s : Store) (r : RawPlan) : Except VError String × Store :=
  match validatePlan r with
  | .error e => (.error e, s)
  | .ok p => let res := insertPlan s p; (.ok res.1, res.2)

/-- src/main.py `create_payment` (POST /payments). -/
def create_payment (s : Store) (r : RawPayment) : Except VError String × Store :=
  match validatePayment r with
  | .error e => (.error e, s)
  | .ok p => let res := insertPayment s p; (.ok res.1, res.2)

/-- The `$or` predicate built by src/main.py `search` lines 160-163: a
case-insensitive text match (`$regex` does not match a missing or null
`text` field) or exact membership of `q` in `tags` (`$in`). -/
def searchMatch (q : String) (p : Post) : Bool :=
  (match p.text with
   | some t => strContainsCI t q
   | none => false) ||
  p.tags.contains q

/-- src/main.py `search` (POST /search): `get_documents("post", {...}, 50)`. -/
def search (s : Store) (q : String) : List Post :=
  (s.posts.filter (searchMatch q)).take 50

/-- src/main.py `recommendations` (GET /recommendations): the `user_id`
query parameter is never used;
`get_documents("post", {"visibility": {"$in": ["public","followers"]}}, 20)`. -/
def recommendations (s : Store) (_user_id : Option String) : List Post :=
  (s.posts.filter (fun p => ["public", "followers"].contains p.visibility)).take 20

/-! ## Diagnostics endpoint (src/main.py `test_database`) -/

/-- The JSON body returned by GET /test. -/
structure TestResponse where
  backend : String
  database : String
  database_url : String
  database_name : String
  connection_status : String
  collections : List String
deriving DecidableEq, Repr

/-- Modelled from the spec: the `db` handle comes from database.py (absent
from src/).  §4.4 distinguishes store unavailable (`db is None`), store
reachable but erroring (`list_collection_names` raises), and store
connected and enumerable. -/
inductive DbState where
  | unavailable
  | connected (name : String) (listResult : Except String (List String))

/-- src/main.py `test_database` (GET /test), lines 35-59: starts from the
all-negative response, upgrades fields per the db state, truncates the
exception text to 80 characters and the collection list to 20 names, and
always returns the body (every failure is caught). -/
def test_database : DbState → TestResponse
  | .unavailable =>
    ⟨"✅ Running", "❌ Not Available", "❌ Not Set", "❌ Not Set", "Not Connected", []⟩
  | .connected name (.error e) =>
    ⟨"✅ Running", "⚠️ Connected but Error: " ++ e.take 80, "✅ Set", name, "Connected", []⟩
  | .connected name (.ok cs) =>
    ⟨"✅ Running", "✅ Connected & Working", "✅ Set", name, "Connected", cs.take 20⟩

/-! ## Helper lemmas -/

/-- String `==` is definitionally `decide` of equality. -/
theorem strBeqDecide (x y : String) : (x == y) = decide (x = y) := rfl

/-- `listContainsSub` decides the contiguous-sublist relation. -/
theorem listContainsSub_iff (hay needle : List Char) :
    listContainsSub hay needle = true ↔ needle <:+: hay := by
  induction hay with
  | nil =>
    rw [listContainsSub]
    simp [List.isPrefixOf_iff_prefix, List.infix_nil]
  | cons c tl ih =>
    rw [listContainsSub]
    simp [List.isPrefixOf_iff_prefix, List.infix_cons_iff, ih]

/-- `strContainsCI` decides lower-cased contiguous containment. -/
theorem strContainsCI_iff (hay needle : String) :
    strContainsCI hay needle = true ↔
      needle.toList.map Char.toLower <:+: hay.toList.map Char.toLower :=
  listContainsSub_iff _ _

/-- A truthy optional string is exactly a present, non-empty one. -/
theorem truthyStr_iff (w : Option String) :
    truthyStr w = true ↔ ∃ v, w = some v ∧ v ≠ "" := by
  cases w with
  | none => simp [truthyStr]
  | some v =>
    constructor
    · intro h
      refine ⟨v, rfl, fun hv => ?_⟩
      subst hv
      exact absurd h (by decide)
    · rintro ⟨u, hu, hne⟩
      injection hu with huv
      subst huv
      cases hw2 : v.isEmpty with
      | false => simp [truthyStr, hw2]
      | true => exact absurd ((String.isEmpty_iff v).mp hw2) hne

/-- A present non-empty parameter is truthy. -/
theorem truthyStr_some_of_ne (v : String) (h : v ≠ "") : truthyStr (some v) = true := by
  rw [truthyStr_iff]
  exact ⟨v, rfl, h⟩

/-! ## Concrete fixtures used by witnesses and counterexamples -/

def demoPost1 : Post :=
  ⟨"u1", "text", some "Say Hello!", none, none, ["intro"], false, none, none, "public"⟩

def demoRawPost : RawPost :=
  ⟨some "u1", some "text", some "Say Hello!", none, none, some ["intro"], none, none, none, none⟩

def demoStore : Store := ⟨[], [demoPost1], [], [], [], 0⟩

def demoMsg : Message := ⟨"a", "c", "hi", none⟩

def msgStore : Store := ⟨[], [], [demoMsg], [], [], 0⟩

def stockUser : User := ⟨"u0", "u0@example.com", none, none, true, false⟩

def fullStore : Store := ⟨List.replicate 50 stockUser, [], [], [], [], 0⟩

def newRawUser : RawUser := ⟨some "newbie", some "n@example.com", none, none, none, none⟩

def newUser : User := ⟨"newbie", "n@example.com", none, none, true, false⟩

def bogusRawPost : RawPost :=
  ⟨some "u1", some "bogus", none, none, none, none, none, none, none, none⟩

def bogusRawUser : RawUser := ⟨none, some "e@example.com", none, none, none, none⟩

def bogusRawPlan : RawPlan := ⟨some "c1", some "Gold", some (-5), none, none, none⟩

def bogusRawPayment : RawPayment := ⟨some "u1", some 100, none, some "bribe", none, none, none⟩

def demoPayment (a : Int) : Payment := ⟨"u1", a, "USD", "subscription", "mock", "initiated", none⟩

def paymentPayload (a : Int) : RawPayment := ⟨some "u1", some a, none, none, none, none, none⟩

/-! ## Claim theorems -/

/-- Claim C1: for every search payload `{q}`, POST /search returns only
documents from the post collection, at most 50, and a post matches if and
only if its `text` field contains `q` as a case-insensitive substring
(lower-cased contiguous containment; a missing `text` never matches) or `q`
is exactly equal to one of its tags. -/
theorem search_posts_capped_and_matching (s : Store) (q : String) :
    List.Sublist (search s q) s.posts
    ∧ (search s q).length ≤ 50
    ∧ (∀ p, searchMatch q p = true ↔
        ((∃ t, p.text = some t ∧ strContainsCI t q = true) ∨ q ∈ p.tags))
    ∧ (∀ p, p ∈ search s q →
        ((∃ t, p.text = some t ∧ strContainsCI t q = true) ∨ q ∈ p.tags))
    ∧ (∀ t, strContainsCI t q = true ↔ q.toList.map Char.toLower <:+: t.toList.map Char.toLower)
    ∧ search s q = (s.posts.filter (searchMatch q)).take 50 := by
  have hiff : ∀ p : Post, searchMatch q p = true ↔
      ((∃ t, p.text = some t ∧ strContainsCI t q = true) ∨ q ∈ p.tags) := by
    intro p
    cases htext : p.text with
    | none => simp [searchMatch, htext]
    | some t => simp [searchMatch, htext]
  refine ⟨?_, List.length_take_le _ _, hiff, ?_, fun t => strContainsCI_iff t q, rfl⟩
  · exact (List.take_sublist _ _).trans (List.filter_sublist _)
  · intro p hp
    exact (hiff p).mp (List.mem_filter.mp (List.mem_of_mem_take hp)).2

/-- Witness for C1 at a concrete store: the post with text "Say Hello!"
is returned for the query "hello" and satisfies the match condition. -/
theorem search_posts_capped_and_matching_witness :
    (∃ t, demoPost1.text = some t ∧ strContainsCI t "hello" = true) ∨ "hello" ∈ demoPost1.tags :=
  (search_posts_capped_and_matching demoStore "hello").2.2.2.1 demoPost1 (by decide)

/-- Claim C5: GET /recommendations returns only posts whose visibility is
"public" or "followers" (never "private" or "subscribers"), at most 20 of
them, and the result is identical for any two `user_id` values. -/
theorem recommendations_static_filter (s : Store) (u : Option String) :
    (∀ p, p ∈ recommendations s u →
        (p.visibility = "public" ∨ p.visibility = "followers") ∧
        p.visibility ≠ "private" ∧ p.visibility ≠ "subscribers")
    ∧ (recommendations s u).length ≤ 20
    ∧ (∀ w, recommendations s u = recommendations s w) := by
  refine ⟨?_, List.length_take_le _ _, fun w => rfl⟩
  intro p hp
  have h := (List.mem_filter.mp (List.mem_of_mem_take hp)).2
  have hv : p.visibility = "public" ∨ p.visibility = "followers" := by
    simpa using h
  refine ⟨hv, ?_, ?_⟩ <;> rcases hv with h1 | h1 <;> rw [h1] <;> decide

/-- Witness for C5 at a concrete store and user. -/
theorem recommendations_static_filter_witness :
    (demoPost1.visibility = "public" ∨ demoPost1.visibility = "followers") ∧
    demoPost1.visibility ≠ "private" ∧ demoPost1.visibility ≠ "subscribers" :=
  (recommendations_static_filter demoStore (some "anyone")).1 demoPost1 (by decide)

/-- Claim C9: an empty-string filter parameter is treated as absent, because
the handlers test the parameter by Python truthiness: GET /posts with
`tag=""` behaves exactly like omitting `tag` (no tag restriction), and
GET /messages with `with_user=""` applies the single-participant filter. -/
theorem empty_param_treated_as_absent (s : Store) (a : Option String) (u : String) :
    list_posts s (some "") a = list_posts s none a
    ∧ get_messages s u (some "") = get_messages s u none
    ∧ get_messages s u (some "") =
        (s.messages.filter (fun m => m.sender_id == u || m.recipient_id == u)).take 200
    ∧ list_posts s (some "") none = s.posts.take 100 := by
  refine ⟨rfl, rfl, rfl, ?_⟩
  show (s.posts.filter (fun _ => true)).take 100 = s.posts.take 100
  rw [List.filter_true]

/-- Claim C10: `Payment.amount_cents` is an unconstrained integer: for every
integer amount, including zero and negative values, POST /payments validates
the payload and appends the payment to the store. -/
theorem payment_amount_unconstrained (a : Int) (s : Store) :
    validatePayment (paymentPayload a) = Except.ok (demoPayment a)
    ∧ (demoPayment a).amount_cents = a
    ∧ create_payment s (paymentPayload a) =
        (Except.ok (toString s.nextId),
         { s with payments := s.payments ++ [demoPayment a], nextId := s.nextId + 1 }) :=
  ⟨rfl, rfl, rfl⟩

/-- Claim C2 counterexample: with `with_user` equal to the empty string the
handler ignores it (Python truthiness), so GET /messages with `user_id="a"`
and `with_user=""` returns a message to "c", which is not between "a" and ""
in either direction. -/
theorem get_messages_pair_cex :
    demoMsg ∈ get_messages msgStore "a" (some "") ∧
    ¬((demoMsg.sender_id = "a" ∧ demoMsg.recipient_id = "") ∨
      (demoMsg.sender_id = "" ∧ demoMsg.recipient_id = "a")) := by decide

/-- Claim C2 (amended): for every pair of user identifiers A and B with B
non-empty, GET /messages with `user_id=A` and `with_user=B` returns exactly
the messages whose (sender_id, recipient_id) is (A, B) or (B, A); when
`with_user` is omitted it returns exactly the messages where A is sender or
recipient; both capped at 200. -/
theorem get_messages_pair_filter (s : Store) (A B : String) (hB : B ≠ "") :
    (∀ m, m ∈ get_messages s A (some B) →
        (m.sender_id = A ∧ m.recipient_id = B) ∨ (m.sender_id = B ∧ m.recipient_id = A))
    ∧ get_messages s A (some B) =
        (s.messages.filter (fun m =>
          decide ((m.sender_id = A ∧ m.recipient_id = B) ∨
                  (m.sender_id = B ∧ m.recipient_id = A)))).take 200
    ∧ (∀ m, m ∈ get_messages s A none → m.sender_id = A ∨ m.recipient_id = A)
    ∧ get_messages s A none =
        (s.messages.filter (fun m => decide (m.sender_id = A ∨ m.recipient_id = A))).take 200
    ∧ (∀ w, (get_messages s A w).length ≤ 200) := by
  have hT : truthyStr (some B) = true := truthyStr_some_of_ne B hB
  have heq1 : get_messages s A (some B) =
      (s.messages.filter (fun m =>
        (m.sender_id == A && m.recipient_id == B) ||
        (m.sender_id == B && m.recipient_id == A))).take 200 := by
    simp [get_messages, hT]
  have heq2 : get_messages s A none =
      (s.messages.filter (fun m => m.sender_id == A || m.recipient_id == A)).take 200 := rfl
  refine ⟨?_, ?_, ?_, ?_, ?_⟩
  · intro m hm
    rw [heq1] at hm
    have h := (List.mem_filter.mp (List.mem_of_mem_take hm)).2
    simpa using h
  · rw [heq1]
    congr 1
    apply List.filter_congr
    intro m _
    simp [strBeqDecide, Bool.decide_and, Bool.decide_or]
  · intro m hm
    rw [heq2] at hm
    have h := (List.mem_filter.mp (List.mem_of_mem_take hm)).2
    simpa using h
  · rw [heq2]
    congr 1
    apply List.filter_congr
    intro m _
    simp [strBeqDecide, Bool.decide_or]
  · intro w
    exact List.length_take_le _ _

/-- Witness for the amended C2: the stored message from "a" to "c" is
returned for the pair ("a", "c") and is between them. -/
theorem get_messages_pair_filter_witness :
    (demoMsg.sender_id = "a" ∧ demoMsg.recipient_id = "c") ∨
    (demoMsg.sender_id = "c" ∧ demoMsg.recipient_id = "a") :=
  (get_messages_pair_filter msgStore "a" "c" (by decide)).1 demoMsg (by decide)

/-- Claim C3 counterexample: with `tag=""` and `author_id=""` both filters
are dropped (Python truthiness), so GET /posts returns a post whose tags do
not contain "" and whose author_id is not "". -/
theorem list_posts_tag_author_cex :
    demoPost1 ∈ list_posts demoStore (some "") (some "") ∧
    ¬("" ∈ demoPost1.tags) ∧ ¬(demoPost1.author_id = "") := by decide

/-- Claim C3 (amended): for every non-empty tag X and non-empty author Y,
GET /posts with `tag=X` returns only posts whose tags contain X, supplying
both `tag=X` and `author_id=Y` returns exactly the posts satisfying both
conditions, and every GET /posts result is capped at 100. -/
theorem list_posts_tag_author_filter (s : Store) (X Y : String) (a : Option String)
    (hX : X ≠ "") (hY : Y ≠ "") :
    (∀ p, p ∈ list_posts s (some X) a → X ∈ p.tags)
    ∧ list_posts s (some X) (some Y) =
        (s.posts.filter (fun p => decide (X ∈ p.tags ∧ p.author_id = Y))).take 100
    ∧ (∀ t b, (list_posts s t b).length ≤ 100) := by
  have hTX : truthyStr (some X) = true := truthyStr_some_of_ne X hX
  have hTY : truthyStr (some Y) = true := truthyStr_some_of_ne Y hY
  refine ⟨?_, ?_, ?_⟩
  · intro p hp
    simp only [list_posts, hTX, if_true, Option.getD_some] at hp
    have h := (List.mem_filter.mp (List.mem_of_mem_take hp)).2
    have h1 := ((Bool.and_eq_true _ _).mp h).1
    simpa using h1
  · show (s.posts.filter _).take 100 = _
    congr 1
    apply List.filter_congr
    intro p _
    simp [hTX, hTY, strBeqDecide, Bool.decide_and]
  · intro t b
    exact List.length_take_le _ _

/-- Witness for the amended C3 at a concrete store, tag and author. -/
theorem list_posts_tag_author_filter_witness :
    list_posts demoStore (some "intro") (some "u1") =
      (demoStore.posts.filter (fun p => decide ("intro" ∈ p.tags ∧ p.author_id = "u1"))).take 100 :=
  (list_posts_tag_author_filter demoStore "intro" "u1" none (by decide) (by decide)).2.1

/-- Claim C4: a payload that violates the entity schema is rejected with a
validation error and no store write happens: on the error path every create
handler returns the error together with the unchanged store. -/
theorem create_rejects_invalid_without_write (s : Store) (rp : RawPost) (ru : RawUser)
    (rpl : RawPlan) (rpay : RawPayment) (e1 e2 e3 e4 : VError)
    (h1 : validatePost rp = Except.error e1) (h2 : validateUser ru = Except.error e2)
    (h3 : validatePlan rpl = Except.error e3) (h4 : validatePayment rpay = Except.error e4) :
    create_post s rp = (Except.error e1, s)
    ∧ create_user s ru = (Except.error e2, s)
    ∧ create_plan s rpl = (Except.error e3, s)
    ∧ create_payment s rpay = (Except.error e4, s) := by
  refine ⟨?_, ?_, ?_, ?_⟩
  · simp [create_post, h1]
  · simp [create_user, h2]
  · simp [create_plan, h3]
  · simp [create_payment, h4]

/-- Witness for C4: a post with `content_type="bogus"`, a user without a
username, a plan with negative price and a payment with an unknown purpose
are each rejected and leave the empty store unchanged. -/
theorem create_rejects_invalid_without_write_witness :
    create_post emptyStore bogusRawPost =
      (Except.error ⟨"content_type", "Input should be a permitted value"⟩, emptyStore)
    ∧ create_user emptyStore bogusRawUser =
      (Except.error ⟨"username", "Field required"⟩, emptyStore)
    ∧ create_plan emptyStore bogusRawPlan =
      (Except.error ⟨"price_cents", "Input should be greater than or equal to 0"⟩, emptyStore)
    ∧ create_payment emptyStore bogusRawPayment =
      (Except.error ⟨"purpose", "Input should be a permitted value"⟩, emptyStore) :=
  create_rejects_invalid_without_write emptyStore bogusRawPost bogusRawUser bogusRawPlan
    bogusRawPayment _ _ _ _ rfl rfl rfl rfl

/-- Claim C6 counterexample: with 50 users already stored, a freshly created
valid user does not appear in GET /users, because the list is capped at 50
documents in insertion order. -/
theorem create_then_list_roundtrip_cex :
    validateUser newRawUser = Except.ok newUser ∧
    newUser ∉ list_users (create_user fullStore newRawUser).2 :=
  ⟨rfl, by decide⟩

/-- Claim C6 (amended): for every valid entity payload, create-then-list
round-trips provided the collection held fewer documents than the list cap
(50 for users, 100 for posts) before the create. -/
theorem create_then_list_roundtrip (s : Store) (ru : RawUser) (u : User)
    (rp : RawPost) (p : Post)
    (hu : validateUser ru = Except.ok u) (hp : validatePost rp = Except.ok p)
    (h50 : s.users.length < 50) (h100 : s.posts.length < 100) :
    u ∈ list_users (create_user s ru).2
    ∧ p ∈ list_posts (create_post s rp).2 none none := by
  constructor
  · have hs : (create_user s ru).2 = { s with users := s.users ++ [u], nextId := s.nextId + 1 } := by
      simp [create_user, hu, insertUser]
    rw [hs]
    show u ∈ (s.users ++ [u]).take 50
    rw [List.take_of_length_le (by simp; omega)]
    simp
  · have hs : (create_post s rp).2 = { s with posts := s.posts ++ [p], nextId := s.nextId + 1 } := by
      simp [create_post, hp, insertPost]
    rw [hs]
    have hlist : list_posts { s with posts := s.posts ++ [p], nextId := s.nextId + 1 } none none
        = (s.posts ++ [p]).take 100 := by
      show ((s.posts ++ [p]).filter (fun _ => true)).take 100 = (s.posts ++ [p]).take 100
      rw [List.filter_true]
    rw [hlist, List.take_of_length_le (by simp; omega)]
    simp

/-- Witness for the amended C6 starting from the empty store. -/
theorem create_then_list_roundtrip_witness :
    newUser ∈ list_users (create_user emptyStore newRawUser).2
    ∧ demoPost1 ∈ list_posts (create_post emptyStore demoRawPost).2 none none :=
  create_then_list_roundtrip emptyStore newRawUser newUser demoRawPost demoPost1 rfl rfl
    (by decide) (by decide)

/-- Claim C7: GET /test always returns a descriptive JSON body with the
backend marked as running, reports at most 20 collection names, and maps
each store state (unavailable, reachable-but-erroring, connected) to its
descriptive status; no state produces an exception (the handler is a total
function into response bodies). -/
theorem test_database_descriptive (st : DbState) :
    (test_database st).backend = "✅ Running"
    ∧ (test_database st).collections.length ≤ 20
    ∧ (st = DbState.unavailable →
        test_database st =
          ⟨"✅ Running", "❌ Not Available", "❌ Not Set", "❌ Not Set", "Not Connected", []⟩)
    ∧ (∀ n e, st = DbState.connected n (Except.error e) →
        (test_database st).database = "⚠️ Connected but Error: " ++ e.take 80
        ∧ (test_database st).connection_status = "Connected")
    ∧ (∀ n cs, st = DbState.connected n (Except.ok cs) →
        (test_database st).database = "✅ Connected & Working"
        ∧ (test_database st).collections = cs.take 20) := by
  cases st with
  | unavailable =>
    refine ⟨rfl, by simp [test_database], fun _ => rfl, ?_, ?_⟩
    · intro n e h
      exact DbState.noConfusion h
    · intro n cs h
      exact DbState.noConfusion h
  | connected name r =>
    cases r with
    | error e =>
      refine ⟨rfl, by simp [test_database], ?_, ?_, ?_⟩
      · intro h
        exact DbState.noConfusion h
      · intro n2 e2 h
        rw [h]
        exact ⟨rfl, rfl⟩
      · intro n2 cs h
        injection h with hn hr
        exact Except.noConfusion hr
    | ok cs =>
      refine ⟨rfl, ?_, ?_, ?_, ?_⟩
      · exact List.length_take_le _ _
      · intro h
        exact DbState.noConfusion h
      · intro n2 e2 h
        injection h with hn hr
        exact Except.noConfusion hr
      · intro n2 cs2 h
        rw [h]
        exact ⟨rfl, rfl⟩

/-- Witness for C7: a connected store enumerating two collections. -/
theorem test_database_descriptive_witness :
    (test_database (DbState.connected "mydb" (Except.ok ["user", "post"]))).database
      = "✅ Connected & Working"
    ∧ (test_database (DbState.connected "mydb" (Except.ok ["user", "post"]))).collections
      = ["user", "post"].take 20 :=
  (test_database_descriptive (DbState.connected "mydb" (Except.ok ["user", "post"]))).2.2.2.2
    "mydb" ["user", "post"] rfl

/-- Claim C8: POST /plans succeeds only if `price_cents` is at least 0, and
a payload carrying a negative `price_cents` is rejected with a validation
error while the store is left unchanged. -/
theorem plan_price_nonnegative (s : Store) (r : RawPlan) :
    (∀ p, validatePlan r = Except.ok p → 0 ≤ p.price_cents)
    ∧ (∀ c, r.price_cents = some c → c < 0 →
        ∃ e, validatePlan r = Except.error e ∧ create_plan s r = (Except.error e, s)) := by
  constructor
  · intro p hp
    unfold validatePlan at hp
    split at hp
    · exact absurd hp (by simp)
    · split at hp
      · exact absurd hp (by simp)
      · split at hp
        · exact absurd hp (by simp)
        · split at hp
          · exact absurd hp (by simp)
          · split at hp
            · exact absurd hp (by simp)
            · simp only [Except.ok.injEq] at hp
              subst hp
              simp only []
              omega
  · intro c hpc hneg
    have he : ∃ e, validatePlan r = Except.error e := by
      cases hcid : r.creator_id with
      | none =>
        exact ⟨_, by unfold validatePlan; rw [hcid]; rfl⟩
      | some cid =>
        cases ht : r.title with
        | none =>
          exact ⟨_, by unfold validatePlan; rw [hcid, ht]; rfl⟩
        | some t =>
          refine ⟨⟨"price_cents", "Input should be greater than or equal to 0"⟩, ?_⟩
          unfold validatePlan
          rw [hcid, ht, hpc]
          simp only [reqField]
          rw [if_pos hneg]
    obtain ⟨e, he⟩ := he
    exact ⟨e, he, by simp [create_plan, he]⟩

/-- Witness for C8: the plan payload with `price_cents = -5` is rejected and
stores nothing. -/
theorem plan_price_nonnegative_witness :
    ∃ e, validatePlan bogusRawPlan = Except.error e ∧
      create_plan emptyStore bogusRawPlan = (Except.error e, emptyStore) :=
  (plan_price_nonnegative emptyStore bogusRawPlan).2 (-5) rfl (by decide)

end CreatorPlatform
